import Mathlib

/-!
Verification development for the rust-mq MQTT client core.

Two layers are embedded, following the source layout:
* `Mqtt3` — the wire codec (`src/mqtt3/src/read.rs`, errors from
  `src/mqtt3/src/mq_error.rs`).  Byte streams are `List Nat` (each
  element one octet); MQTT strings are modelled as raw byte lists
  (UTF-8 validation is abstracted away — no claim depends on it).
* `Mqttc` — the client session engine (`src/mqttc/src/client.rs`,
  errors from `src/mqttc/src/error.rs`).  Transport I/O is modelled by
  recording the packets the engine writes; `flush` always succeeds.
-/

namespace RustMq

namespace Mqtt3

/-- Codec error type, from `src/mqtt3/src/mq_error.rs` (`MQError`).
The `Io` variant is collapsed to a single constructor `IoFailure`
because the wrapped `std::io::Error` payload is irrelevant here. -/
inductive MQError where
  | IncorrectPacketFormat
  | InvalidTopicPath
  | UnsupportedProtocolName
  | UnsupportedProtocolVersion
  | UnsupportedQualityOfService
  | UnsupportedPacketType
  | UnsupportedConnectReturnCode
  | PayloadSizeIncorrect
  | PayloadTooLong
  | PayloadRequired
  | TopicNameMustNotContainNonUtf8
  | TopicNameMustNotContainWildcard
  | MalformedRemainingLength
  | UnexpectedEof
  | IoFailure
  deriving DecidableEq

/-- QoS levels, from the `mqtt3` crate (`QoS`). -/
inductive QoS where
  | AtMostOnce
  | AtLeastOnce
  | ExactlyOnce
  deriving DecidableEq

/-- Modelled from the spec: `QoS::from_u8` of the `mqtt3` crate root is
not under `src/`; the spec gives the enumeration {AtMostOnce=0,
AtLeastOnce=1, ExactlyOnce=2} and says QoS value 3 is
`UnsupportedQualityOfService`. -/
def QoS.from_u8 : Nat → Except MQError QoS
  | 0 => .ok .AtMostOnce
  | 1 => .ok .AtLeastOnce
  | 2 => .ok .ExactlyOnce
  | _ => .error .UnsupportedQualityOfService

/-- Modelled from the spec: the `PacketType` enum of the `mqtt3` crate
root is not under `src/`; the spec lists the fourteen control packet
variants, with the type tag in the upper nibble of the first header
byte (CONNECT=1 … DISCONNECT=14, standard MQTT numbering visible in
the spec byte examples 0x10, 0x20, 0x32, 0x82, 0x90, 0xA2). -/
inductive PacketType where
  | Connect
  | Connack
  | Publish
  | Puback
  | Pubrec
  | Pubrel
  | Pubcomp
  | Subscribe
  | Suback
  | Unsubscribe
  | Unsuback
  | Pingreq
  | Pingresp
  | Disconnect
  deriving DecidableEq

/-- Modelled from the spec: packet type tag from the upper-nibble
value; any other value is `UnsupportedPacketType`. -/
def PacketType.from_u8 : Nat → Except MQError PacketType
  | 1 => .ok .Connect
  | 2 => .ok .Connack
  | 3 => .ok .Publish
  | 4 => .ok .Puback
  | 5 => .ok .Pubrec
  | 6 => .ok .Pubrel
  | 7 => .ok .Pubcomp
  | 8 => .ok .Subscribe
  | 9 => .ok .Suback
  | 10 => .ok .Unsubscribe
  | 11 => .ok .Unsuback
  | 12 => .ok .Pingreq
  | 13 => .ok .Pingresp
  | 14 => .ok .Disconnect
  | _ => .error .UnsupportedPacketType

/-- Decoded fixed header: first byte, packet type, decoded remaining
length.  Modelled from the spec (`Header::new` of the crate root is
not under `src/`): "packet type tag (upper nibble of first byte),
lower-nibble flags (dup, qos, retain), and the decoded
remaining-length". -/
structure Header where
  hd : Nat
  typ : PacketType
  len : Nat
  deriving DecidableEq

/-- Modelled from the spec: `Header::new(hd, len)` decodes the type
from the upper nibble and stores the raw byte and length. -/
def Header.new (hd len : Nat) : Except MQError Header :=
  match PacketType.from_u8 (hd >>> 4) with
  | .error e => .error e
  | .ok typ => .ok ⟨hd, typ, len⟩

/-- PUBLISH dup flag: bit 3 of the header byte. -/
def Header.dup (h : Header) : Bool := h.hd &&& 8 ≠ 0

/-- PUBLISH retain flag: bit 0 of the header byte. -/
def Header.retain (h : Header) : Bool := h.hd &&& 1 ≠ 0

/-- PUBLISH qos flags: bits 2–1 of the header byte (`header.qos()`),
failing on the reserved value 3. -/
def Header.qos (h : Header) : Except MQError QoS :=
  QoS.from_u8 ((h.hd &&& 6) >>> 1)

/-- Protocol variants, from the spec data model: {MQIsdp(level 3),
MQTT(level 4)}. -/
inductive Protocol where
  | MQIsdp (level : Nat)
  | MQTT (level : Nat)
  deriving DecidableEq

/-- Modelled from the spec: `Protocol::new(name, level)` of the crate
root is not under `src/`; "MQTT 3.1 (protocol name MQIsdp, level 3)
and MQTT 3.1.1 (name MQTT, level 4).  Other names/levels →
UnsupportedProtocolName / UnsupportedProtocolVersion."  Names are the
raw UTF-8 bytes. -/
def Protocol.new (name : List Nat) (level : Nat) : Except MQError Protocol :=
  if name = [77, 81, 73, 115, 100, 112] then
    if level = 3 then .ok (.MQIsdp 3) else .error .UnsupportedProtocolVersion
  else if name = [77, 81, 84, 84] then
    if level = 4 then .ok (.MQTT 4) else .error .UnsupportedProtocolVersion
  else .error .UnsupportedProtocolName

/-- CONNACK return codes, from the spec data model. -/
inductive ConnectReturnCode where
  | Accepted
  | UnacceptableProtocolVersion
  | IdentifierRejected
  | ServerUnavailable
  | BadUsernamePassword
  | NotAuthorized
  deriving DecidableEq

/-- Modelled from the spec: `ConnectReturnCode::from_u8` of the crate
root is not under `src/`; "return code byte mapped to enum (values
0–5 only)", others `UnsupportedConnectReturnCode`. -/
def ConnectReturnCode.from_u8 : Nat → Except MQError ConnectReturnCode
  | 0 => .ok .Accepted
  | 1 => .ok .UnacceptableProtocolVersion
  | 2 => .ok .IdentifierRejected
  | 3 => .ok .ServerUnavailable
  | 4 => .ok .BadUsernamePassword
  | 5 => .ok .NotAuthorized
  | _ => .error .UnsupportedConnectReturnCode

/-- Subscription return codes, from the `mqtt3` crate
(`SubscribeReturnCodes`). -/
inductive SubscribeReturnCodes where
  | Success (qos : QoS)
  | Failure
  deriving DecidableEq

/-- One (topic filter, requested qos) pair of a SUBSCRIBE; topic bytes
raw. -/
structure SubscribeTopic where
  topic_path : List Nat
  qos : QoS
  deriving DecidableEq

/-- Last-will record of a CONNECT. -/
structure LastWill where
  topic : List Nat
  message : List Nat
  qos : QoS
  retain : Bool
  deriving DecidableEq

/-- Decoded CONNECT payload (`mqtt3::Connect`). -/
structure Connect where
  protocol : Protocol
  keep_alive : Nat
  client_id : List Nat
  clean_session : Bool
  last_will : Option LastWill
  username : Option (List Nat)
  password : Option (List Nat)
  deriving DecidableEq

/-- Decoded CONNACK payload (`mqtt3::Connack`). -/
structure Connack where
  session_present : Bool
  code : ConnectReturnCode
  deriving DecidableEq

/-- Decoded PUBLISH payload (`mqtt3::Publish`). -/
structure Publish where
  dup : Bool
  qos : QoS
  retain : Bool
  topic_name : List Nat
  pid : Option Nat
  payload : List Nat
  deriving DecidableEq

/-- Decoded SUBSCRIBE payload (`mqtt3::Subscribe`). -/
structure Subscribe where
  pid : Nat
  topics : List SubscribeTopic
  deriving DecidableEq

/-- Decoded SUBACK payload (`mqtt3::Suback`). -/
structure Suback where
  pid : Nat
  return_codes : List SubscribeReturnCodes
  deriving DecidableEq

/-- Decoded UNSUBSCRIBE payload (`mqtt3::Unsubscribe`). -/
structure Unsubscribe where
  pid : Nat
  topics : List (List Nat)
  deriving DecidableEq

/-- The control packet sum type (`mqtt3::Packet`). -/
inductive Packet where
  | Connect (c : Connect)
  | Connack (c : Connack)
  | Publish (p : Publish)
  | Puback (pid : Nat)
  | Pubrec (pid : Nat)
  | Pubrel (pid : Nat)
  | Pubcomp (pid : Nat)
  | Subscribe (s : Subscribe)
  | Suback (s : Suback)
  | Unsubscribe (u : Unsubscribe)
  | Unsuback (pid : Nat)
  | Pingreq
  | Pingresp
  | Disconnect
  deriving DecidableEq

/-- Read one byte from the stream (`read_u8`); empty stream is an
unexpected EOF. -/
def read_u8 (bs : List Nat) : Except MQError (Nat × List Nat) :=
  match bs with
  | [] => .error .UnexpectedEof
  | b :: rest => .ok (b, rest)

/-- Read a big-endian u16 (`read_u16::<BigEndian>`). -/
def read_u16be (bs : List Nat) : Except MQError (Nat × List Nat) :=
  match bs with
  | b1 :: b2 :: rest => .ok (b1 * 256 + b2, rest)
  | _ => .error .UnexpectedEof

/-- Modelled from the spec: the `MULTIPLIER` constant of the crate
root is not under `src/`; the spec fixes the remaining-length field
to at most four bytes (max value 268435455), which forces
`MULTIPLIER = 0x80^4`: the check `mult > MULTIPLIER` then passes a
fourth byte and rejects a fifth. -/
def MULTIPLIER : Nat := 0x80 * 0x80 * 0x80 * 0x80

/-- Loop body of `read_remaining_length` (`src/mqtt3/src/read.rs`,
lines 238–255): accumulate seven data bits per byte, multiply the
weight by 0x80, fail with `MalformedRemainingLength` once the weight
exceeds `MULTIPLIER`, stop when the continuation bit is clear. -/
def read_remaining_length_loop (mult len : Nat) (bs : List Nat) :
    Except MQError (Nat × List Nat) :=
  match bs with
  | [] => .error .UnexpectedEof
  | b :: rest =>
    let len1 := len + (b &&& 0x7F) * mult
    let mult1 := mult * 0x80
    if mult1 > MULTIPLIER then .error .MalformedRemainingLength
    else if b &&& 0x80 = 0 then .ok (len1, rest)
    else read_remaining_length_loop mult1 len1 rest

/-- `MqttRead::read_remaining_length`. -/
def read_remaining_length (bs : List Nat) : Except MQError (Nat × List Nat) :=
  read_remaining_length_loop 1 0 bs

/-- `MqttRead::read_mqtt_string`: two-byte big-endian length then that
many bytes.  `Take::read_to_end` stops quietly at end of input, so a
short stream yields a short string rather than an error; UTF-8
validation is abstracted (strings stay raw bytes). -/
def read_mqtt_string (bs : List Nat) : Except MQError (List Nat × List Nat) :=
  match read_u16be bs with
  | .error e => .error e
  | .ok (len, rest) => .ok (rest.take len, rest.drop len)

/-- `MqttRead::read_connect` (`read.rs` lines 82–132). -/
def read_connect (bs : List Nat) : Except MQError Connect :=
  match read_mqtt_string bs with
  | .error e => .error e
  | .ok (protocol_name, bs1) =>
    match read_u8 bs1 with
    | .error e => .error e
    | .ok (protocol_level, bs2) =>
      match Protocol.new protocol_name protocol_level with
      | .error e => .error e
      | .ok protocol =>
        match read_u8 bs2 with
        | .error e => .error e
        | .ok (connect_flags, bs3) =>
          match read_u16be bs3 with
          | .error e => .error e
          | .ok (keep_alive, bs4) =>
            match read_mqtt_string bs4 with
            | .error e => .error e
            | .ok (client_id, bs5) =>
              let willRes :
                  Except MQError (Option LastWill × List Nat) :=
                if connect_flags &&& 4 = 0 then
                  if connect_flags &&& 0x38 ≠ 0 then
                    .error .IncorrectPacketFormat
                  else .ok (none, bs5)
                else
                  match read_mqtt_string bs5 with
                  | .error e => .error e
                  | .ok (will_topic, bs6) =>
                    match read_mqtt_string bs6 with
                    | .error e => .error e
                    | .ok (will_message, bs7) =>
                      match QoS.from_u8 ((connect_flags &&& 0x18) >>> 3) with
                      | .error e => .error e
                      | .ok will_qos =>
                        .ok (some ⟨will_topic, will_message, will_qos,
                              connect_flags &&& 0x20 ≠ 0⟩, bs7)
              match willRes with
              | .error e => .error e
              | .ok (last_will, bs8) =>
                let userRes :
                    Except MQError (Option (List Nat) × List Nat) :=
                  if connect_flags &&& 0x80 = 0 then .ok (none, bs8)
                  else
                    match read_mqtt_string bs8 with
                    | .error e => .error e
                    | .ok (u, bs9) => .ok (some u, bs9)
                match userRes with
                | .error e => .error e
                | .ok (username, bs10) =>
                  let passRes :
                      Except MQError (Option (List Nat) × List Nat) :=
                    if connect_flags &&& 0x40 = 0 then .ok (none, bs10)
                    else
                      match read_mqtt_string bs10 with
                      | .error e => .error e
                      | .ok (p, bs11) => .ok (some p, bs11)
                  match passRes with
                  | .error e => .error e
                  | .ok (password, _) =>
                    .ok ⟨protocol, keep_alive, client_id,
                         connect_flags &&& 2 ≠ 0, last_will,
                         username, password⟩

/-- `MqttRead::read_connack` (`read.rs` lines 134–144). -/
def read_connack (header : Header) (bs : List Nat) : Except MQError Connack :=
  if header.len ≠ 2 then .error .PayloadSizeIncorrect
  else
    match read_u8 bs with
    | .error e => .error e
    | .ok (flags, bs1) =>
      match read_u8 bs1 with
      | .error e => .error e
      | .ok (return_code, _) =>
        match ConnectReturnCode.from_u8 return_code with
        | .error e => .error e
        | .ok code => .ok ⟨flags &&& 1 = 1, code⟩

/-- `MqttRead::read_publish` (`read.rs` lines 146–167).  The source
calls `header.qos().unwrap()` before constructing the packet; the
panic on the reserved qos value is modelled as the error the later
`header.qos()?` would raise. -/
def read_publish (header : Header) (bs : List Nat) : Except MQError Publish :=
  match read_mqtt_string bs with
  | .error e => .error e
  | .ok (topic_name, bs1) =>
    match header.qos with
    | .error e => .error e
    | .ok qos =>
      match (if qos ≠ QoS.AtMostOnce then
               match read_u16be bs1 with
               | .error e => .error e
               | .ok (p, bs2) => .ok (some p, bs2)
             else .ok (none, bs1) :
             Except MQError (Option Nat × List Nat)) with
      | .error e => .error e
      | .ok (pid, bs3) =>
        .ok ⟨header.dup, qos, header.retain, topic_name, pid, bs3⟩

/-- The `while remaining_bytes > 0` loop of `MqttRead::read_subscribe`
(`read.rs` lines 174–179): read a topic filter and a qos byte, charge
`filter length + 3` bytes against the remaining count. -/
def read_subscribe_topics (rem : Nat) (bs : List Nat) :
    Except MQError (List SubscribeTopic × List Nat) :=
  if h : rem = 0 then .ok ([], bs)
  else
    match read_mqtt_string bs with
    | .error e => .error e
    | .ok (topic_filter, bs1) =>
      match read_u8 bs1 with
      | .error e => .error e
      | .ok (requested_qos, bs2) =>
        match QoS.from_u8 requested_qos with
        | .error e => .error e
        | .ok qos =>
          match read_subscribe_topics (rem - (topic_filter.length + 3)) bs2 with
          | .error e => .error e
          | .ok (topics, bs3) => .ok (⟨topic_filter, qos⟩ :: topics, bs3)
termination_by rem
decreasing_by
  exact Nat.sub_lt (Nat.pos_of_ne_zero h) (Nat.succ_pos _)

/-- `MqttRead::read_subscribe` (`read.rs` lines 169–185): pid, then
(topic filter, qos) pairs until `header.len - 2` bytes are consumed. -/
def read_subscribe (header : Header) (bs : List Nat) :
    Except MQError Subscribe :=
  match read_u16be bs with
  | .error e => .error e
  | .ok (pid, bs1) =>
    match read_subscribe_topics (header.len - 2) bs1 with
    | .error e => .error e
    | .ok (topics, _) => .ok ⟨pid, topics⟩

/-- The `while remaining_bytes > 0` loop of `MqttRead::read_suback`
(`read.rs` lines 192–200): one return-code byte per iteration; top
bit set is Failure, else Success of the low two bits. -/
def read_suback_codes (rem : Nat) (bs : List Nat) :
    Except MQError (List SubscribeReturnCodes × List Nat) :=
  match rem with
  | 0 => .ok ([], bs)
  | r + 1 =>
    match read_u8 bs with
    | .error e => .error e
    | .ok (return_code, bs1) =>
      match (if return_code >>> 7 = 1 then
               .ok SubscribeReturnCodes.Failure
             else
               match QoS.from_u8 (return_code &&& 3) with
               | .error e => .error e
               | .ok q => .ok (SubscribeReturnCodes.Success q) :
             Except MQError SubscribeReturnCodes) with
      | .error e => .error e
      | .ok code =>
        match read_suback_codes r bs1 with
        | .error e => .error e
        | .ok (codes, bs2) => .ok (code :: codes, bs2)

/-- `MqttRead::read_suback` (`read.rs` lines 187–206). -/
def read_suback (header : Header) (bs : List Nat) : Except MQError Suback :=
  match read_u16be bs with
  | .error e => .error e
  | .ok (pid, bs1) =>
    match read_suback_codes (header.len - 2) bs1 with
    | .error e => .error e
    | .ok (codes, _) => .ok ⟨pid, codes⟩

/-- The `while remaining_bytes > 0` loop of
`MqttRead::read_unsubscribe` (`read.rs` lines 213–217). -/
def read_unsubscribe_topics (rem : Nat) (bs : List Nat) :
    Except MQError (List (List Nat) × List Nat) :=
  if h : rem = 0 then .ok ([], bs)
  else
    match read_mqtt_string bs with
    | .error e => .error e
    | .ok (topic_filter, bs1) =>
      match read_unsubscribe_topics (rem - (topic_filter.length + 2)) bs1 with
      | .error e => .error e
      | .ok (topics, bs2) => .ok (topic_filter :: topics, bs2)
termination_by rem
decreasing_by
  exact Nat.sub_lt (Nat.pos_of_ne_zero h) (Nat.succ_pos _)

/-- `MqttRead::read_unsubscribe` (`read.rs` lines 208–223). -/
def read_unsubscribe (header : Header) (bs : List Nat) :
    Except MQError Unsubscribe :=
  match read_u16be bs with
  | .error e => .error e
  | .ok (pid, bs1) =>
    match read_unsubscribe_topics (header.len - 2) bs1 with
    | .error e => .error e
    | .ok (topics, _) => .ok ⟨pid, topics⟩

/-- The `Ok(Packet::X(...?))` pattern of the dispatch arms: propagate
the sub-reader's error, wrap its value in the packet constructor. -/
def wrap_ok {α : Type} (x : Except MQError α) (f : α → Packet) :
    Except MQError Packet :=
  match x with
  | .error e => .error e
  | .ok a => .ok (f a)

/-- Fixed-size pid-only packets (PUBACK/PUBREC/PUBREL/PUBCOMP/
UNSUBACK): remaining length must be exactly 2, then a u16 pid. -/
def read_pid_packet (header : Header) (bs : List Nat)
    (mk : Nat → Packet) : Except MQError Packet :=
  if header.len ≠ 2 then .error .PayloadSizeIncorrect
  else wrap_ok (read_u16be bs) (fun pr => mk pr.1)

/-- `MqttRead::read_packet` (`read.rs` lines 19–80): header byte,
remaining length, `Header::new`; zero-length packets are only
PINGREQ/PINGRESP (anything else is `PayloadRequired`); otherwise the
body is limited to `len` bytes (`take`) and dispatched on the packet
type.  PINGREQ/PINGRESP with a payload are `IncorrectPacketFormat`;
the residual wildcard arm (DISCONNECT) is `UnsupportedPacketType`. -/
def read_packet (bs : List Nat) : Except MQError Packet :=
  match read_u8 bs with
  | .error e => .error e
  | .ok (hd, bs1) =>
    match read_remaining_length bs1 with
    | .error e => .error e
    | .ok (len, bs2) =>
      match Header.new hd len with
      | .error e => .error e
      | .ok header =>
        if len = 0 then
          match header.typ with
          | .Pingreq => .ok .Pingreq
          | .Pingresp => .ok .Pingresp
          | _ => .error .PayloadRequired
        else
          let raw := bs2.take len
          match header.typ with
          | .Connect => wrap_ok (read_connect raw) (fun c => .Connect c)
          | .Connack => wrap_ok (read_connack header raw) (fun c => .Connack c)
          | .Publish => wrap_ok (read_publish header raw) (fun p => .Publish p)
          | .Puback => read_pid_packet header raw .Puback
          | .Pubrec => read_pid_packet header raw .Pubrec
          | .Pubrel => read_pid_packet header raw .Pubrel
          | .Pubcomp => read_pid_packet header raw .Pubcomp
          | .Subscribe => wrap_ok (read_subscribe header raw) (fun s => .Subscribe s)
          | .Suback => wrap_ok (read_suback header raw) (fun s => .Suback s)
          | .Unsubscribe => wrap_ok (read_unsubscribe header raw) (fun u => .Unsubscribe u)
          | .Unsuback => read_pid_packet header raw .Unsuback
          | .Pingreq => .error .IncorrectPacketFormat
          | .Pingresp => .error .IncorrectPacketFormat
          | .Disconnect => .error .UnsupportedPacketType

end Mqtt3

namespace Mqttc

open Mqtt3 (QoS MQError SubscribeReturnCodes ConnectReturnCode Connack)

/-- Pid-mismatch errors of the dispatch loop, from
`src/mqttc/src/error.rs` (`PacketIdentifierError`). -/
inductive PacketIdentifierError where
  | UnhandledPuback (pid : Nat)
  | UnhandledPubrec (pid : Nat)
  | UnhandledPubrel (pid : Nat)
  | UnhandledPubcomp (pid : Nat)
  deriving DecidableEq

/-- Session errors, from `src/mqttc/src/error.rs` (`Error`); the
spelling `IncommingStorageAbsent` is the source's.  `Storage` and
`Io` payloads are dropped (collapsed to bare constructors). -/
inductive Error where
  | AlreadyConnected
  | UnsupportedFeature
  | UnrecognizedPacket
  | ConnectionAbort
  | IncommingStorageAbsent
  | OutgoingStorageAbsent
  | HandshakeFailed
  | ProtocolViolation
  | Disconnected
  | Timeout
  | PacketIdentifierError (e : PacketIdentifierError)
  | ConnectionRefused (code : ConnectReturnCode)
  | Storage
  | Mqtt (e : MQError)
  | IoFailure
  deriving DecidableEq

/-- Session state, from the `ClientState` enum used by `client.rs`. -/
inductive ClientState where
  | Disconnected
  | Handshake
  | Connected
  deriving BEq, DecidableEq

/-- Application-level view of a PUBLISH (`mqtt3::Message`).  Topic
paths are plain strings (the topic-path collaborator is out of
scope). -/
structure Message where
  topic : String
  qos : QoS
  retain : Bool
  pid : Option Nat
  payload : List Nat
  deriving DecidableEq

/-- Client-side PUBLISH with a decoded topic string
(`mqtt3::Publish` as the engine consumes it). -/
structure Publish where
  dup : Bool
  qos : QoS
  retain : Bool
  topic_name : String
  pid : Option Nat
  payload : List Nat
  deriving DecidableEq

/-- Modelled from the spec: `Message::from_pub` lives in the `mqtt3`
crate's message module, which is not under `src/`.  The spec defines
Message as the application-level view (topic, qos, retain, pid?,
payload) and the invariant "a PUBLISH with qos>0 MUST carry a pid",
so a qos>0 publish without a pid fails decoding. -/
def Message.from_pub (p : Publish) : Except Error Message :=
  if p.qos ≠ QoS.AtMostOnce ∧ p.pid = none then
    .error (.Mqtt .IncorrectPacketFormat)
  else
    .ok ⟨p.topic_name, p.qos, p.retain, p.pid, p.payload⟩

/-- Modelled from the spec: the `Subscription` record of `sub.rs` is
not under `src/`; "Subscription — (pid of original SUBSCRIBE,
topic_path, granted_qos)". -/
structure Subscription where
  pid : Nat
  topic_path : String
  qos : QoS
  deriving DecidableEq

/-- One (topic filter, requested qos) pair as the engine stores it
(`mqtt3::SubscribeTopic` with a decoded string). -/
structure SubscribeTopic where
  topic_path : String
  qos : QoS
  deriving DecidableEq

/-- Pending SUBSCRIBE (`mqtt3::Subscribe`) as queued in
`await_suback`. -/
structure Subscribe where
  pid : Nat
  topics : List SubscribeTopic
  deriving DecidableEq

/-- Pending UNSUBSCRIBE (`mqtt3::Unsubscribe`) as queued in
`await_unsuback`. -/
structure Unsubscribe where
  pid : Nat
  topics : List String
  deriving DecidableEq

/-- SUBACK as the engine consumes it (`mqtt3::Suback`). -/
structure Suback where
  pid : Nat
  return_codes : List SubscribeReturnCodes
  deriving DecidableEq

/-- Packets as the engine reads and writes them (`mqtt3::Packet` with
decoded payload types).  Variants whose payload the engine never
inspects carry none. -/
inductive Packet where
  | Connect
  | Connack (c : Connack)
  | Publish (p : Publish)
  | Puback (pid : Nat)
  | Pubrec (pid : Nat)
  | Pubrel (pid : Nat)
  | Pubcomp (pid : Nat)
  | Subscribe (s : Subscribe)
  | Suback (s : Suback)
  | Unsubscribe (u : Unsubscribe)
  | Unsuback (pid : Nat)
  | Pingreq
  | Pingresp
  | Disconnect
  deriving DecidableEq

/-- A persistent store keyed by packet identifier (the `Store`
collaborator, out of scope; spec: `put` persists keyed by pid, `get`
retrieves, `delete` removes and is idempotent). -/
abbrev Store := List (Nat × Message)

/-- `store.put(message)`: persist keyed by pid (replace or add). -/
def store_put (s : Store) (pid : Nat) (m : Message) : Store :=
  match s with
  | [] => [(pid, m)]
  | (k, v) :: rest =>
    if k = pid then (pid, m) :: rest else (k, v) :: store_put rest pid m

/-- `store.get(pid)`: retrieve a previously put message. -/
def store_get (s : Store) (pid : Nat) : Option Message :=
  match s with
  | [] => none
  | (k, v) :: rest => if k = pid then some v else store_get rest pid

/-- `store.delete(pid)`: remove, idempotent. -/
def store_delete (s : Store) (pid : Nat) : Store :=
  match s with
  | [] => []
  | (k, v) :: rest =>
    if k = pid then store_delete rest pid else (k, v) :: store_delete rest pid

/-- The slice of `ClientOptions` the dispatch logic reads: the two
optional persistent stores (`client.rs` lines 26–27; transport and
handshake options are I/O configuration). -/
structure ClientOptions where
  incomming_store : Option Store
  outgoing_store : Option Store
  deriving DecidableEq

/-- The session engine state (`Client`, `client.rs` lines 195–217).
Transport fields (`addr`, `netopt`, `conn`, `last_flush`) are I/O and
are not part of the protocol state.  Queues are lists with the head
at the `VecDeque` front; `push_back` appends. -/
structure Client where
  state : ClientState
  opts : ClientOptions
  session_present : Bool
  last_pid : Nat
  await_ping : Bool
  incomming_pub : List Message
  incomming_rec : List Message
  incomming_rel : List Nat
  outgoing_ack : List Message
  outgoing_rec : List Message
  outgoing_comp : List Nat
  await_suback : List Subscribe
  await_unsuback : List Unsubscribe
  subscriptions : List (String × Subscription)
  deriving DecidableEq

/-- Result of one engine operation: the returned value or error, the
client state afterwards, and the packets written (each write is
followed by a flush in the source; flushing is modelled as always
succeeding). -/
structure Step (α : Type) where
  result : Except Error α
  client : Client
  sent : List Packet

/-- `HashMap::insert` on the subscriptions map, modelled as an
association list: replace the value at the key, or add the entry. -/
def insert_subscription (subs : List (String × Subscription))
    (k : String) (v : Subscription) : List (String × Subscription) :=
  match subs with
  | [] => [(k, v)]
  | (k1, v1) :: rest =>
    if k1 = k then (k, v) :: rest
    else (k1, v1) :: insert_subscription rest k v

/-- The SUBACK install loop (`client.rs` lines 502–519): zip of return
codes with the pending SUBSCRIBE's topics; `Success(qos)` inserts a
Subscription keyed by the topic path, `Failure` is ignored.  (The
`to_topic_path` conversion of the out-of-scope topic collaborator is
the identity on the string.) -/
def install_subscriptions (pid : Nat)
    (pairs : List (SubscribeReturnCodes × SubscribeTopic))
    (subs : List (String × Subscription)) : List (String × Subscription) :=
  match pairs with
  | [] => subs
  | (code, t) :: rest =>
    match code with
    | .Success q =>
      install_subscriptions pid rest
        (insert_subscription subs t.topic_path ⟨pid, t.topic_path, q⟩)
    | .Failure => install_subscriptions pid rest subs

/-- The UNSUBACK removal loop (`client.rs` lines 534–536):
`subscriptions.remove(topic)` for each topic of the pending
UNSUBSCRIBE. -/
def remove_subscriptions (topics : List String)
    (subs : List (String × Subscription)) : List (String × Subscription) :=
  match topics with
  | [] => subs
  | t :: rest => remove_subscriptions rest (subs.filter (fun kv => kv.1 != t))

/-- `Client::_handle_message` (`client.rs` lines 556–590).  QoS 0:
hand the message up.  QoS 1: push to `incomming_pub`, emit PUBACK,
flush, pop `incomming_pub` again, hand the message up.  QoS 2: push
to `incomming_rec`, `put` into the incoming store (failing with
`IncommingStorageAbsent` when absent — after the push), emit PUBREC,
flush, return nothing.  (`message.pid.unwrap()` cannot panic for
qos>0 because `Message.from_pub` enforced the pid; `getD 0` stands in
for the unwrap.) -/
def Client.handle_message (c : Client) (message : Message) :
    Step (Option Message) :=
  match message.qos with
  | .AtMostOnce => ⟨.ok (some message), c, []⟩
  | .AtLeastOnce =>
    let c1 := { c with incomming_pub := c.incomming_pub ++ [message] }
    let pid := message.pid.getD 0
    let c2 := { c1 with incomming_pub := c1.incomming_pub.tail }
    ⟨.ok (some message), c2, [.Puback pid]⟩
  | .ExactlyOnce =>
    let c1 := { c with incomming_rec := c.incomming_rec ++ [message] }
    let pid := message.pid.getD 0
    match c1.opts.incomming_store with
    | some s =>
      let c2 := { c1 with
        opts := { c1.opts with incomming_store := some (store_put s pid message) } }
      ⟨.ok none, c2, [.Pubrec pid]⟩
    | none => ⟨.error .IncommingStorageAbsent, c1, []⟩

/-- `Client::_parse_packet` (`client.rs` lines 416–554): inbound
dispatch over the session state. -/
def Client.parse_packet (c : Client) (packet : Packet) :
    Step (Option Message) :=
  match c.state with
  | .Handshake =>
    match packet with
    | .Connack connack =>
      if connack.code = ConnectReturnCode.Accepted then
        ⟨.ok none,
         { c with session_present := connack.session_present,
                  state := .Connected }, []⟩
      else ⟨.error (.ConnectionRefused connack.code), c, []⟩
    | _ => ⟨.error .HandshakeFailed, c, []⟩
  | .Connected =>
    match packet with
    | .Connack _ => ⟨.error .AlreadyConnected, c, []⟩
    | .Publish pub =>
      match Message.from_pub pub with
      | .error e => ⟨.error e, c, []⟩
      | .ok message => c.handle_message message
    | .Puback pid =>
      match c.outgoing_ack with
      | [] =>
        ⟨.error (.PacketIdentifierError (.UnhandledPuback pid)), c, []⟩
      | message :: rest =>
        let c1 := { c with outgoing_ack := rest }
        if message.pid = some pid then ⟨.ok none, c1, []⟩
        else ⟨.error (.PacketIdentifierError (.UnhandledPuback pid)), c1, []⟩
    | .Pubrec pid =>
      match c.outgoing_rec with
      | [] =>
        ⟨.error (.PacketIdentifierError (.UnhandledPubrec pid)), c, []⟩
      | message :: rest =>
        let c1 := { c with outgoing_rec := rest }
        if message.pid = some pid then
          let c2 := { c1 with outgoing_comp := c1.outgoing_comp ++ [pid] }
          match c2.opts.outgoing_store with
          | some s =>
            ⟨.ok none,
             { c2 with
               opts := { c2.opts with outgoing_store := some (store_delete s pid) } },
             [.Pubrel pid]⟩
          | none =>
            ⟨.error .IncommingStorageAbsent, c2, [.Pubrel pid]⟩
        else ⟨.error (.PacketIdentifierError (.UnhandledPubrec pid)), c1, []⟩
    | .Pubrel pid =>
      match c.incomming_rec with
      | [] =>
        ⟨.error (.PacketIdentifierError (.UnhandledPubrel pid)), c, []⟩
      | message :: rest =>
        let c1 := { c with incomming_rec := rest }
        if message.pid = some pid then
          match c1.opts.incomming_store with
          | some s =>
            match store_get s pid with
            | some stored =>
              ⟨.ok (some stored),
               { c1 with incomming_rel := c1.incomming_rel ++ [pid] }, []⟩
            | none => ⟨.error .Storage, c1, []⟩
          | none => ⟨.error .IncommingStorageAbsent, c1, []⟩
        else ⟨.error (.PacketIdentifierError (.UnhandledPubrel pid)), c1, []⟩
    | .Pubcomp pid =>
      match c.outgoing_comp with
      | [] =>
        ⟨.error (.PacketIdentifierError (.UnhandledPubcomp pid)), c, []⟩
      | _ :: rest => ⟨.ok none, { c with outgoing_comp := rest }, []⟩
    | .Suback suback =>
      match c.await_suback with
      | [] => ⟨.error .ProtocolViolation, c, []⟩
      | subscribe :: rest =>
        let c1 := { c with await_suback := rest }
        if subscribe.pid = suback.pid then
          if subscribe.topics.length = suback.return_codes.length then
            let newsubs :=
              install_subscriptions subscribe.pid
                (suback.return_codes.zip subscribe.topics) c1.subscriptions
            ⟨.ok none, { c1 with subscriptions := newsubs }, []⟩
          else ⟨.error .ProtocolViolation, c1, []⟩
        else ⟨.error .ProtocolViolation, c1, []⟩
    | .Unsuback pid =>
      match c.await_unsuback with
      | [] => ⟨.error .ProtocolViolation, c, []⟩
      | unsubscribe :: rest =>
        let c1 := { c with await_unsuback := rest }
        if unsubscribe.pid = pid then
          let newsubs := remove_subscriptions unsubscribe.topics c1.subscriptions
          ⟨.ok none, { c1 with subscriptions := newsubs }, []⟩
        else ⟨.error .ProtocolViolation, c1, []⟩
    | .Pingresp => ⟨.ok none, { c with await_ping := false }, []⟩
    | _ => ⟨.error .UnrecognizedPacket, c, []⟩
  | .Disconnected => ⟨.error .ConnectionAbort, c, []⟩

/-- `Client::complete` (`client.rs` lines 379–394): pop the back of
`incomming_rel`; on a match emit PUBCOMP, flush, and delete the pid
from the incoming store (`IncommingStorageAbsent` when none); on a
mismatch return `ProtocolViolation` (the back stays popped). -/
def Client.complete (c : Client) (pid : Nat) : Step Unit :=
  let same_pid := c.incomming_rel.getLast?
  let c1 := { c with incomming_rel := c.incomming_rel.dropLast }
  if same_pid = some pid then
    match c1.opts.incomming_store with
    | some s =>
      ⟨.ok (),
       { c1 with
         opts := { c1.opts with incomming_store := some (store_delete s pid) } },
       [.Pubcomp pid]⟩
    | none => ⟨.error .IncommingStorageAbsent, c1, [.Pubcomp pid]⟩
  else ⟨.error .ProtocolViolation, c1, []⟩

/-- `Client::_unbind` (`client.rs` lines 709–716): close the
transport, clear both SUBACK/UNSUBACK wait queues and the ping flag,
drop to Disconnected.  Reached from `terminate()` and from fatal
transport errors. -/
def Client.unbind (c : Client) : Client :=
  { c with
    await_unsuback := [],
    await_suback := [],
    await_ping := false,
    state := .Disconnected }

/-- `Client::_normalized` (`client.rs` lines 408–414): the condition
under which `await` returns `Ok(None)` — Connected, no outstanding
ping, and the seven listed queues empty (`outgoing_comp` is not
inspected). -/
def Client.normalized (c : Client) : Bool :=
  (c.state == ClientState.Connected) && (!c.await_ping) &&
  (c.outgoing_ack.length == 0) && (c.outgoing_rec.length == 0) &&
  (c.incomming_pub.length == 0) && (c.incomming_rec.length == 0) &&
  (c.incomming_rel.length == 0) && (c.await_suback.length == 0) &&
  (c.await_unsuback.length == 0)

/-- A quiescent connected client, used as the base point for concrete
evaluations. -/
def baseClient : Client :=
  { state := .Connected
    opts := { incomming_store := none, outgoing_store := none }
    session_present := false
    last_pid := 0
    await_ping := false
    incomming_pub := []
    incomming_rec := []
    incomming_rel := []
    outgoing_ack := []
    outgoing_rec := []
    outgoing_comp := []
    await_suback := []
    await_unsuback := []
    subscriptions := [] }

end Mqttc

open Mqtt3 Mqttc

lemma wrap_ok_ne {α : Type} (x : Except MQError α) (f : α → Mqtt3.Packet)
    (p : Mqtt3.Packet) (hf : ∀ a, f a ≠ p) : wrap_ok x f ≠ .ok p := by
  cases x <;> simp [wrap_ok, hf]

lemma read_subscribe_topics_zero (bs : List Nat) :
    read_subscribe_topics 0 bs = .ok ([], bs) := by
  unfold read_subscribe_topics
  simp

lemma read_subscribe_len_two (hd b1 b2 : Nat) (rest : List Nat) :
    read_subscribe ⟨hd, .Subscribe, 2⟩ (b1 :: b2 :: rest) =
      .ok ⟨b1 * 256 + b2, []⟩ := by
  unfold read_subscribe
  simp [read_u16be, read_subscribe_topics_zero]

/-- C4 counterexample: the byte sequence `82 02 00 0A` frames a
SUBSCRIBE whose body is only the two-byte packet identifier (pid 10)
and no (topic filter, qos) pair, yet it decodes successfully — the
claim that such a packet fails to decode is false. -/
theorem c4_subscribe_empty_decodes :
    read_packet [0x82, 0x02, 0x00, 0x0A] =
      .ok (.Subscribe ⟨10, []⟩) := by
  have h1 : read_packet [0x82, 0x02, 0x00, 0x0A] =
      wrap_ok (read_subscribe ⟨0x82, .Subscribe, 2⟩ [0x00, 0x0A])
        (fun s => .Subscribe s) := rfl
  rw [h1, read_subscribe_len_two]
  simp [wrap_ok]

/-- C4 (amended): a SUBSCRIBE packet whose body contains only the
two-byte packet identifier decodes successfully to a `Subscribe` with
an empty topic list; the decoder enforces no at-least-one-pair
requirement. -/
theorem c4_subscribe_pid_only :
    ∀ (b1 b2 : Nat) (rest : List Nat),
      read_packet (0x82 :: 0x02 :: b1 :: b2 :: rest) =
        .ok (.Subscribe ⟨b1 * 256 + b2, []⟩) := by
  intro b1 b2 rest
  have h1 : read_packet (0x82 :: 0x02 :: b1 :: b2 :: rest) =
      wrap_ok (read_subscribe ⟨0x82, .Subscribe, 2⟩ [b1, b2])
        (fun s => .Subscribe s) := rfl
  rw [h1, read_subscribe_len_two]
  simp [wrap_ok]

/-- C5: a remaining-length field whose first four bytes all carry the
continuation bit fails with `MalformedRemainingLength` at the fifth
byte, whatever that byte is; and every well-formed encoding of one to
four bytes (continuation bits set on all but the last byte) decodes
to the base-128 weighted sum of its seven-bit groups. -/
theorem c5_remaining_length :
    (∀ b1 b2 b3 b4 b5 rest, b1 &&& 0x80 ≠ 0 → b2 &&& 0x80 ≠ 0 →
      b3 &&& 0x80 ≠ 0 → b4 &&& 0x80 ≠ 0 →
      read_remaining_length (b1 :: b2 :: b3 :: b4 :: b5 :: rest) =
        .error .MalformedRemainingLength)
    ∧ (∀ b1 rest, b1 &&& 0x80 = 0 →
      read_remaining_length (b1 :: rest) = .ok (b1 &&& 0x7F, rest))
    ∧ (∀ b1 b2 rest, b1 &&& 0x80 ≠ 0 → b2 &&& 0x80 = 0 →
      read_remaining_length (b1 :: b2 :: rest) =
        .ok ((b1 &&& 0x7F) + (b2 &&& 0x7F) * 0x80, rest))
    ∧ (∀ b1 b2 b3 rest, b1 &&& 0x80 ≠ 0 → b2 &&& 0x80 ≠ 0 →
      b3 &&& 0x80 = 0 →
      read_remaining_length (b1 :: b2 :: b3 :: rest) =
        .ok ((b1 &&& 0x7F) + (b2 &&& 0x7F) * 0x80 +
          (b3 &&& 0x7F) * (0x80 * 0x80), rest))
    ∧ (∀ b1 b2 b3 b4 rest, b1 &&& 0x80 ≠ 0 → b2 &&& 0x80 ≠ 0 →
      b3 &&& 0x80 ≠ 0 → b4 &&& 0x80 = 0 →
      read_remaining_length (b1 :: b2 :: b3 :: b4 :: rest) =
        .ok ((b1 &&& 0x7F) + (b2 &&& 0x7F) * 0x80 +
          (b3 &&& 0x7F) * (0x80 * 0x80) +
          (b4 &&& 0x7F) * (0x80 * 0x80 * 0x80), rest)) := by
  refine ⟨?_, ?_, ?_, ?_, ?_⟩
  · intro b1 b2 b3 b4 b5 rest h1 h2 h3 h4
    simp [read_remaining_length, read_remaining_length_loop, MULTIPLIER,
      h1, h2, h3, h4]
  · intro b1 rest h1
    simp [read_remaining_length, read_remaining_length_loop, MULTIPLIER, h1]
  · intro b1 b2 rest h1 h2
    simp [read_remaining_length, read_remaining_length_loop, MULTIPLIER,
      h1, h2]
  · intro b1 b2 b3 rest h1 h2 h3
    simp [read_remaining_length, read_remaining_length_loop, MULTIPLIER,
      h1, h2, h3]
  · intro b1 b2 b3 b4 rest h1 h2 h3 h4
    simp [read_remaining_length, read_remaining_length_loop, MULTIPLIER,
      h1, h2, h3, h4]

/-- C5 witness: the spec's concrete malformed sequence
`FF FF FF FF 00` (the remaining-length bytes after header byte 10)
fails, and the two-byte encoding `80 01` decodes to 128. -/
theorem c5_remaining_length_witness :
    read_remaining_length [0xFF, 0xFF, 0xFF, 0xFF, 0x00] =
      .error .MalformedRemainingLength
    ∧ read_remaining_length [0x80, 0x01] = .ok (128, []) :=
  ⟨(c5_remaining_length.1 0xFF 0xFF 0xFF 0xFF 0x00 [] (by decide) (by decide) (by decide) (by decide)),
   (by simpa using c5_remaining_length.2.2.1 0x80 0x01 [] (by decide) (by decide))⟩

/-- C9: whenever the fixed header decodes with remaining length 0 and
a packet type that is neither PINGREQ nor PINGRESP, the packet fails
with `PayloadRequired`; and no byte stream whatsoever decodes to the
`Disconnect` variant. -/
theorem c9_zero_length_payload_required :
    (∀ (hd : Nat) (bs1 rest : List Nat) (typ : PacketType),
      read_remaining_length bs1 = .ok (0, rest) →
      PacketType.from_u8 (hd >>> 4) = .ok typ →
      typ ≠ .Pingreq → typ ≠ .Pingresp →
      read_packet (hd :: bs1) = .error .PayloadRequired)
    ∧ (∀ bs : List Nat, read_packet bs ≠ .ok .Disconnect) := by
  constructor
  · intro hd bs1 rest typ h1 h2 h3 h4
    unfold read_packet
    simp only [read_u8, h1, Header.new, h2]
    cases typ <;> simp_all
  · intro bs h
    unfold read_packet read_pid_packet at h
    repeat' split at h
    all_goals solve
      | simp_all
      | exact wrap_ok_ne _ _ Mqtt3.Packet.Disconnect (by intro a; simp) h

/-- C9 witness: the wire-encoded DISCONNECT packet `E0 00` (type 14,
remaining length 0) fails with `PayloadRequired`. -/
theorem c9_zero_length_payload_required_witness :
    read_packet [0xE0, 0x00] = .error .PayloadRequired :=
  c9_zero_length_payload_required.1 0xE0 [0x00] [] .Disconnect
    rfl rfl (by decide) (by decide)

lemma clientState_beq_iff (a b : ClientState) : (a == b) = true ↔ a = b := by
  cases a <;> cases b <;> decide

/-- C8: `_unbind` clears `await_suback`, `await_unsuback` and
`await_ping` and drops the state to Disconnected, while leaving the
in-flight publish queues (`outgoing_ack`, `outgoing_rec`,
`outgoing_comp`, `incomming_pub`, `incomming_rec`, `incomming_rel`)
and the subscriptions map unchanged. -/
theorem c8_unbind_frame :
    ∀ c : Client,
      (c.unbind).await_suback = [] ∧
      (c.unbind).await_unsuback = [] ∧
      (c.unbind).await_ping = false ∧
      (c.unbind).state = .Disconnected ∧
      (c.unbind).outgoing_ack = c.outgoing_ack ∧
      (c.unbind).outgoing_rec = c.outgoing_rec ∧
      (c.unbind).outgoing_comp = c.outgoing_comp ∧
      (c.unbind).incomming_pub = c.incomming_pub ∧
      (c.unbind).incomming_rec = c.incomming_rec ∧
      (c.unbind).incomming_rel = c.incomming_rel ∧
      (c.unbind).subscriptions = c.subscriptions :=
  fun _ => ⟨rfl, rfl, rfl, rfl, rfl, rfl, rfl, rfl, rfl, rfl, rfl⟩

/-- C1 counterexample: a Connected client with no outstanding ping,
all seven inspected queues empty but `outgoing_comp = [1]` is
`_normalized` — the very condition under which `await` returns
`Ok(None)` — even though `outgoing_comp` is not empty, so the claim
that `await() = Ok(None)` implies every queue including
`outgoing_comp` is empty is false. -/
theorem c1_normalized_ignores_outgoing_comp :
    Client.normalized { baseClient with outgoing_comp := [1] } = true ∧
    ({ baseClient with outgoing_comp := [1] } : Client).outgoing_comp ≠ [] :=
  ⟨by decide, by decide⟩

/-- C1 (amended): whenever `_normalized` holds — the condition under
which `await` returns `Ok(None)` — the state is Connected,
`await_ping` is false, and the queues `incomming_pub`,
`incomming_rec`, `incomming_rel`, `outgoing_ack`, `outgoing_rec`,
`await_suback`, `await_unsuback` are all empty; `outgoing_comp` is
not constrained. -/
theorem c1_normalized_queues :
    ∀ c : Client, c.normalized = true →
      c.state = .Connected ∧ c.await_ping = false ∧
      c.outgoing_ack = [] ∧ c.outgoing_rec = [] ∧
      c.incomming_pub = [] ∧ c.incomming_rec = [] ∧
      c.incomming_rel = [] ∧ c.await_suback = [] ∧
      c.await_unsuback = [] := by
  intro c h
  simp only [Client.normalized, Bool.and_eq_true, Bool.not_eq_true',
    beq_iff_eq, List.length_eq_zero, clientState_beq_iff, and_assoc] at h
  exact h

/-- C1 witness: the quiescent connected client is normalized and
satisfies the amended conclusion. -/
theorem c1_normalized_queues_witness :
    Client.normalized baseClient = true ∧
    (baseClient.state = .Connected ∧ baseClient.await_ping = false ∧
      baseClient.outgoing_ack = [] ∧ baseClient.outgoing_rec = [] ∧
      baseClient.incomming_pub = [] ∧ baseClient.incomming_rec = [] ∧
      baseClient.incomming_rel = [] ∧ baseClient.await_suback = [] ∧
      baseClient.await_unsuback = []) :=
  ⟨by decide, c1_normalized_queues baseClient (by decide)⟩

/-- C2: a Connected client whose `outgoing_rec` head carries pid 1
receives PUBREC(1).  With no outgoing store configured the dispatch
fails — but with `IncommingStorageAbsent`, not the
`OutgoingStorageAbsent` the spec names for a missing *outgoing*
store.  With an outgoing store configured, the handler emits PUBREL,
pushes the pid onto `outgoing_comp`, and deletes it from the outgoing
store, as claimed. -/
theorem c2_pubrec_wrong_storage_error :
    (Client.parse_packet
      { baseClient with
        outgoing_rec := [⟨"a", .ExactlyOnce, false, some 1, []⟩] }
      (.Pubrec 1)).result = .error .IncommingStorageAbsent
    ∧ ((Client.parse_packet
      { baseClient with
        outgoing_rec := [⟨"a", .ExactlyOnce, false, some 1, []⟩],
        opts := ⟨none, some [(1, ⟨"a", .ExactlyOnce, false, some 1, []⟩)]⟩ }
      (.Pubrec 1)).result = .ok none
    ∧ (Client.parse_packet
      { baseClient with
        outgoing_rec := [⟨"a", .ExactlyOnce, false, some 1, []⟩],
        opts := ⟨none, some [(1, ⟨"a", .ExactlyOnce, false, some 1, []⟩)]⟩ }
      (.Pubrec 1)).sent = [.Pubrel 1]
    ∧ (Client.parse_packet
      { baseClient with
        outgoing_rec := [⟨"a", .ExactlyOnce, false, some 1, []⟩],
        opts := ⟨none, some [(1, ⟨"a", .ExactlyOnce, false, some 1, []⟩)]⟩ }
      (.Pubrec 1)).client.outgoing_comp = [1]
    ∧ (Client.parse_packet
      { baseClient with
        outgoing_rec := [⟨"a", .ExactlyOnce, false, some 1, []⟩],
        opts := ⟨none, some [(1, ⟨"a", .ExactlyOnce, false, some 1, []⟩)]⟩ }
      (.Pubrec 1)).client.opts.outgoing_store = some []
    ∧ (Client.parse_packet
      { baseClient with
        outgoing_rec := [⟨"a", .ExactlyOnce, false, some 1, []⟩],
        opts := ⟨none, some [(1, ⟨"a", .ExactlyOnce, false, some 1, []⟩)]⟩ }
      (.Pubrec 1)).client.outgoing_rec = []) :=
  ⟨rfl, rfl, rfl, rfl, rfl, rfl⟩

/-- C3 counterexample: a Connected client with `outgoing_comp = [5]`
receives PUBCOMP(7): the dispatch succeeds with `Ok(None)` and the
queue is advanced to `[]`, so the claim that an out-of-order PUBCOMP
is rejected is false. -/
theorem c3_pubcomp_ignores_pid :
    (Client.parse_packet { baseClient with outgoing_comp := [5] }
      (.Pubcomp 7)).result = .ok none
    ∧ (Client.parse_packet { baseClient with outgoing_comp := [5] }
      (.Pubcomp 7)).client.outgoing_comp = [] :=
  ⟨rfl, rfl⟩

/-- C3 (amended): PUBCOMP pops the head of `outgoing_comp` without
comparing its pid against the incoming one; only an empty
`outgoing_comp` yields `UnhandledPubcomp(pid)`.  Out-of-order
PUBCOMPs are not detected. -/
theorem c3_pubcomp_pops_head :
    ∀ (c : Client) (pid : Nat), c.state = .Connected →
      (c.outgoing_comp = [] →
        (c.parse_packet (.Pubcomp pid)).result =
          .error (.PacketIdentifierError (.UnhandledPubcomp pid))
        ∧ (c.parse_packet (.Pubcomp pid)).client = c)
      ∧ (∀ x rest, c.outgoing_comp = x :: rest →
        (c.parse_packet (.Pubcomp pid)).result = .ok none
        ∧ (c.parse_packet (.Pubcomp pid)).client =
            { c with outgoing_comp := rest }) := by
  intro c pid hstate
  constructor
  · intro hemp
    constructor <;> simp [Client.parse_packet, hstate, hemp]
  · intro x rest hcons
    constructor <;> simp [Client.parse_packet, hstate, hcons]

/-- C3 witness: a client with `outgoing_comp = [3]` receiving
PUBCOMP(3) succeeds and leaves the queue empty. -/
theorem c3_pubcomp_pops_head_witness :
    (Client.parse_packet { baseClient with outgoing_comp := [3] }
      (.Pubcomp 3)).result = .ok none
    ∧ (Client.parse_packet { baseClient with outgoing_comp := [3] }
      (.Pubcomp 3)).client =
        { ({ baseClient with outgoing_comp := [3] } : Client) with
          outgoing_comp := ([] : List Nat) } :=
  (c3_pubcomp_pops_head { baseClient with outgoing_comp := [3] } 3
    rfl).2 3 [] rfl

/-- C6 counterexample: a client whose `incomming_rel` most-recent
entry is 1 but with no incoming store configured: `complete(1)` does
not succeed (it fails with `IncommingStorageAbsent`) even though the
pid equals the most-recent entry, so "succeeds exactly when the pid
matches" is false. -/
theorem c6_complete_needs_store :
    ({ baseClient with incomming_rel := [1] } : Client).incomming_rel.getLast?
      = some 1
    ∧ (Client.complete { baseClient with incomming_rel := [1] } 1).result
      = .error .IncommingStorageAbsent :=
  ⟨rfl, rfl⟩

/-- C6 (amended): `complete(pid)` succeeds exactly when pid equals
the most-recent entry of `incomming_rel` and an incoming store is
configured, in which case it emits PUBCOMP, flushes, and deletes the
pid from the store; a matching pid without a store fails with
`IncommingStorageAbsent` (after PUBCOMP was already emitted); a
mismatch yields `ProtocolViolation`. -/
theorem c6_complete_spec :
    ∀ (c : Client) (pid : Nat),
      (∀ s, c.opts.incomming_store = some s →
        c.incomming_rel.getLast? = some pid →
        (c.complete pid).result = .ok ()
        ∧ (c.complete pid).sent = [.Pubcomp pid]
        ∧ (c.complete pid).client.incomming_rel = c.incomming_rel.dropLast
        ∧ (c.complete pid).client.opts.incomming_store =
            some (store_delete s pid))
      ∧ (c.opts.incomming_store = none →
        c.incomming_rel.getLast? = some pid →
        (c.complete pid).result = .error .IncommingStorageAbsent
        ∧ (c.complete pid).sent = [.Pubcomp pid])
      ∧ (c.incomming_rel.getLast? ≠ some pid →
        (c.complete pid).result = .error .ProtocolViolation
        ∧ (c.complete pid).sent = []) := by
  intro c pid
  refine ⟨?_, ?_, ?_⟩
  · intro s hs hlast
    refine ⟨?_, ?_, ?_, ?_⟩ <;> simp [Client.complete, hs, hlast]
  · intro hs hlast
    constructor <;> simp [Client.complete, hs, hlast]
  · intro hlast
    constructor <;> simp [Client.complete, hlast]

/-- C6 witness: with `incomming_rel = [4]` and an incoming store
holding pid 4, `complete(4)` succeeds, emits PUBCOMP(4), empties
`incomming_rel`, and deletes the entry from the store. -/
theorem c6_complete_spec_witness :
    (Client.complete
      { baseClient with
        incomming_rel := [4],
        opts := ⟨some [(4, ⟨"a", .ExactlyOnce, false, some 4, []⟩)], none⟩ }
      4).result = .ok ()
    ∧ (Client.complete
      { baseClient with
        incomming_rel := [4],
        opts := ⟨some [(4, ⟨"a", .ExactlyOnce, false, some 4, []⟩)], none⟩ }
      4).client.opts.incomming_store = some [] := by
  have h := (c6_complete_spec
    { baseClient with
      incomming_rel := [4],
      opts := ⟨some [(4, ⟨"a", .ExactlyOnce, false, some 4, []⟩)], none⟩ }
    4).1 [(4, ⟨"a", .ExactlyOnce, false, some 4, []⟩)] rfl rfl
  exact ⟨h.1, by rw [h.2.2.2]; rfl⟩

/-- C10: calling `complete(pid)` on a client whose `incomming_rel` is
non-empty with a pid different from its most-recent entry returns
`ProtocolViolation` and nevertheless removes that most-recent entry —
the queue shrinks by one. -/
theorem c10_complete_mismatch_pops :
    ∀ (c : Client) (pid : Nat), c.incomming_rel ≠ [] →
      c.incomming_rel.getLast? ≠ some pid →
      (c.complete pid).result = .error .ProtocolViolation
      ∧ (c.complete pid).client.incomming_rel = c.incomming_rel.dropLast
      ∧ (c.complete pid).client.incomming_rel.length + 1 =
          c.incomming_rel.length := by
  intro c pid hne hlast
  have hpos : 0 < c.incomming_rel.length := List.length_pos.mpr hne
  refine ⟨?_, ?_, ?_⟩
  · simp [Client.complete, hlast]
  · simp [Client.complete, hlast]
  · simp [Client.complete, hlast, List.length_dropLast]
    omega

/-- C10 witness: `incomming_rel = [1, 2]`, `complete(9)` fails with
`ProtocolViolation` yet pops the entry 2. -/
theorem c10_complete_mismatch_pops_witness :
    (Client.complete { baseClient with incomming_rel := [1, 2] } 9).result
      = .error .ProtocolViolation
    ∧ (Client.complete { baseClient with incomming_rel := [1, 2] }
        9).client.incomming_rel = [1] := by
  have h := c10_complete_mismatch_pops
    { baseClient with incomming_rel := [1, 2] } 9 (by decide) (by decide)
  exact ⟨h.1, by rw [h.2.1]; decide⟩

/-- Lookup in the subscriptions association list (the observable view
of `HashMap::get`). -/
def lookup_subscription (subs : List (String × Subscription)) (k : String) :
    Option Subscription :=
  match subs with
  | [] => none
  | (k1, v) :: rest => if k1 = k then some v else lookup_subscription rest k

lemma lookup_insert_self (subs : List (String × Subscription))
    (k : String) (v : Subscription) :
    lookup_subscription (insert_subscription subs k v) k = some v := by
  induction subs with
  | nil => simp [insert_subscription, lookup_subscription]
  | cons hd tl ih =>
    obtain ⟨k1, v1⟩ := hd
    by_cases h : k1 = k <;>
      simp [insert_subscription, lookup_subscription, h, ih]

lemma lookup_insert_other (subs : List (String × Subscription))
    (k : String) (v : Subscription) (k1 : String) (h : k ≠ k1) :
    lookup_subscription (insert_subscription subs k v) k1 =
      lookup_subscription subs k1 := by
  induction subs with
  | nil => simp [insert_subscription, lookup_subscription, h]
  | cons hd tl ih =>
    obtain ⟨k2, v2⟩ := hd
    by_cases h2 : k2 = k
    · subst h2
      simp [insert_subscription, lookup_subscription, h]
    · simp [insert_subscription, lookup_subscription, h2, ih]

lemma install_not_mem (pid : Nat)
    (pairs : List (SubscribeReturnCodes × Mqttc.SubscribeTopic))
    (subs : List (String × Subscription)) (k : String)
    (hk : k ∉ pairs.map (fun pr => pr.2.topic_path)) :
    lookup_subscription (install_subscriptions pid pairs subs) k =
      lookup_subscription subs k := by
  induction pairs generalizing subs with
  | nil => simp [install_subscriptions]
  | cons hd tl ih =>
    obtain ⟨code, t⟩ := hd
    simp only [List.map_cons, List.mem_cons, not_or] at hk
    cases code with
    | Success q =>
      rw [install_subscriptions, ih _ hk.2,
        lookup_insert_other _ _ _ _ (fun he => hk.1 he.symm)]
    | Failure =>
      rw [install_subscriptions]
      exact ih _ hk.2

lemma install_success_mem (pid : Nat)
    (pairs : List (SubscribeReturnCodes × Mqttc.SubscribeTopic))
    (subs : List (String × Subscription)) (q : QoS) (t : Mqttc.SubscribeTopic)
    (hnd : (pairs.map (fun pr => pr.2.topic_path)).Nodup)
    (hmem : (SubscribeReturnCodes.Success q, t) ∈ pairs) :
    lookup_subscription (install_subscriptions pid pairs subs) t.topic_path =
      some ⟨pid, t.topic_path, q⟩ := by
  induction pairs generalizing subs with
  | nil => cases hmem
  | cons hd tl ih =>
    obtain ⟨code, t0⟩ := hd
    rw [List.map_cons, List.nodup_cons] at hnd
    rcases List.mem_cons.mp hmem with heq | hmem2
    · obtain ⟨hcode, ht⟩ := Prod.mk.injEq .. ▸ heq
      subst hcode
      subst ht
      rw [install_subscriptions, install_not_mem _ _ _ _ hnd.1]
      exact lookup_insert_self _ _ _
    · cases code with
      | Success q0 =>
        rw [install_subscriptions]
        exact ih _ hnd.2 hmem2
      | Failure =>
        rw [install_subscriptions]
        exact ih _ hnd.2 hmem2

lemma install_failure_mem (pid : Nat)
    (pairs : List (SubscribeReturnCodes × Mqttc.SubscribeTopic))
    (subs : List (String × Subscription)) (t : Mqttc.SubscribeTopic)
    (hnd : (pairs.map (fun pr => pr.2.topic_path)).Nodup)
    (hmem : (SubscribeReturnCodes.Failure, t) ∈ pairs) :
    lookup_subscription (install_subscriptions pid pairs subs) t.topic_path =
      lookup_subscription subs t.topic_path := by
  induction pairs generalizing subs with
  | nil => cases hmem
  | cons hd tl ih =>
    obtain ⟨code, t0⟩ := hd
    rw [List.map_cons, List.nodup_cons] at hnd
    rcases List.mem_cons.mp hmem with heq | hmem2
    · obtain ⟨hcode, ht⟩ := Prod.mk.injEq .. ▸ heq
      subst hcode
      subst ht
      rw [install_subscriptions, install_not_mem _ _ _ _ hnd.1]
    · have htmem : t.topic_path ∈ tl.map (fun pr => pr.2.topic_path) :=
        List.mem_map.mpr ⟨_, hmem2, rfl⟩
      cases code with
      | Success q0 =>
        rw [install_subscriptions, ih _ hnd.2 hmem2,
          lookup_insert_other _ _ _ _
            (fun he => hnd.1 (by rw [he]; exact htmem))]
      | Failure =>
        rw [install_subscriptions]
        exact ih _ hnd.2 hmem2

/-- C7: dispatching a SUBACK in the Connected state with a pending
SUBSCRIBE at the head of `await_suback`: a pid mismatch or a
return-code count different from the topic count is
`ProtocolViolation`; otherwise the dispatch succeeds, the resulting
subscriptions map is the install fold of the (return code, topic)
pairs, and — for pairwise distinct topic paths — every `Success(qos)`
pair installs a Subscription keyed by its topic path while `Failure`
pairs leave their topic's entry unchanged. -/
theorem c7_suback_dispatch :
    ∀ (c : Client) (subscribe : Mqttc.Subscribe) (rest : List Mqttc.Subscribe)
      (suback : Mqttc.Suback),
      c.state = .Connected → c.await_suback = subscribe :: rest →
      ((subscribe.pid ≠ suback.pid →
        (c.parse_packet (.Suback suback)).result = .error .ProtocolViolation)
      ∧ (subscribe.topics.length ≠ suback.return_codes.length →
        (c.parse_packet (.Suback suback)).result = .error .ProtocolViolation)
      ∧ (subscribe.pid = suback.pid →
        subscribe.topics.length = suback.return_codes.length →
        (c.parse_packet (.Suback suback)).result = .ok none
        ∧ (c.parse_packet (.Suback suback)).client.subscriptions =
            install_subscriptions subscribe.pid
              (suback.return_codes.zip subscribe.topics) c.subscriptions
        ∧ ((subscribe.topics.map (fun t => t.topic_path)).Nodup →
          (∀ q t, (SubscribeReturnCodes.Success q, t) ∈
              suback.return_codes.zip subscribe.topics →
            lookup_subscription
              (c.parse_packet (.Suback suback)).client.subscriptions
              t.topic_path = some ⟨subscribe.pid, t.topic_path, q⟩)
          ∧ (∀ t, (SubscribeReturnCodes.Failure, t) ∈
              suback.return_codes.zip subscribe.topics →
            lookup_subscription
              (c.parse_packet (.Suback suback)).client.subscriptions
              t.topic_path = lookup_subscription c.subscriptions
              t.topic_path)))) := by
  intro c subscribe rest suback hstate hqueue
  refine ⟨?_, ?_, ?_⟩
  · intro hne
    simp [Client.parse_packet, hstate, hqueue, hne]
  · intro hlen
    by_cases hp : subscribe.pid = suback.pid <;>
      simp [Client.parse_packet, hstate, hqueue, hp, hlen]
  · intro hp hlen
    have hres : (c.parse_packet (.Suback suback)).client.subscriptions =
        install_subscriptions subscribe.pid
          (suback.return_codes.zip subscribe.topics) c.subscriptions := by
      simp [Client.parse_packet, hstate, hqueue, hp, hlen]
    refine ⟨by simp [Client.parse_packet, hstate, hqueue, hp, hlen], hres, ?_⟩
    intro hnd
    have hzip : (suback.return_codes.zip subscribe.topics).map Prod.snd =
        subscribe.topics :=
      List.map_snd_zip _ _ (le_of_eq hlen)
    have hnd2 : ((suback.return_codes.zip subscribe.topics).map
        (fun pr => pr.2.topic_path)).Nodup := by
      have : ((suback.return_codes.zip subscribe.topics).map
          (fun pr => pr.2.topic_path)) =
          ((suback.return_codes.zip subscribe.topics).map Prod.snd).map
            (fun t => t.topic_path) := by
        rw [List.map_map]
        rfl
      rw [this, hzip]
      exact hnd
    constructor
    · intro q t hmem
      rw [hres]
      exact install_success_mem _ _ _ _ _ hnd2 hmem
    · intro t hmem
      rw [hres]
      exact install_failure_mem _ _ _ _ hnd2 hmem

/-- C7 witness: pending SUBSCRIBE pid 7 for topics "x" and "y", SUBACK
pid 7 with `[Success AtLeastOnce, Failure]`: dispatch succeeds, "x" is
installed with the granted qos, "y" is not installed. -/
theorem c7_suback_dispatch_witness :
    (Client.parse_packet
      { baseClient with
        await_suback := [⟨7, [⟨"x", .AtMostOnce⟩, ⟨"y", .AtMostOnce⟩]⟩] }
      (.Suback ⟨7, [.Success .AtLeastOnce, .Failure]⟩)).result = .ok none
    ∧ lookup_subscription (Client.parse_packet
      { baseClient with
        await_suback := [⟨7, [⟨"x", .AtMostOnce⟩, ⟨"y", .AtMostOnce⟩]⟩] }
      (.Suback ⟨7, [.Success .AtLeastOnce, .Failure]⟩)).client.subscriptions
      "x" = some ⟨7, "x", .AtLeastOnce⟩
    ∧ lookup_subscription (Client.parse_packet
      { baseClient with
        await_suback := [⟨7, [⟨"x", .AtMostOnce⟩, ⟨"y", .AtMostOnce⟩]⟩] }
      (.Suback ⟨7, [.Success .AtLeastOnce, .Failure]⟩)).client.subscriptions
      "y" = none := by
  have h := c7_suback_dispatch
    { baseClient with
      await_suback := [⟨7, [⟨"x", .AtMostOnce⟩, ⟨"y", .AtMostOnce⟩]⟩] }
    ⟨7, [⟨"x", .AtMostOnce⟩, ⟨"y", .AtMostOnce⟩]⟩ []
    ⟨7, [.Success .AtLeastOnce, .Failure]⟩ rfl rfl
  have h3 := h.2.2 rfl rfl
  have hsucc := (h3.2.2 (by simp)).1 QoS.AtLeastOnce ⟨"x", .AtMostOnce⟩
    (by simp)
  have hfail := (h3.2.2 (by simp)).2 ⟨"y", .AtMostOnce⟩ (by simp)
  refine ⟨h3.1, hsucc, ?_⟩
  rw [hfail]
  rfl

end RustMq
